import Mathlib

/-!
Shallow embedding of the sandboxed code-execution and grading subsystem of the
AI-Learning-Platform repository.

Embedded source files:
- code-executor/app.py: the execution sandbox (CodeExecutor).
- backend/app/services/code_execution_service.py: the comparison engine and
  the grading orchestrator (CodeExecutionService).

Machine-level behaviour that the Python code only observes (what the compiler
child process printed, what running the built command produced, which unique
stem the tempfile module picked) is supplied through an explicit environment
value, so every embedded operation is a total, executable function.
-/

namespace AILP

/-- Characters removed by the Python str.strip method with no arguments,
restricted to ASCII whitespace. -/
def isPySpace (c : Char) : Bool :=
  c = ' ' || c = '\t' || c = '\n' || c = '\r' || c = '\x0b' || c = '\x0c'

/-- Python str.strip with no arguments: remove leading and trailing
whitespace. -/
def pyStrip (s : String) : String :=
  ⟨((s.data.dropWhile isPySpace).reverse.dropWhile isPySpace).reverse⟩

/-- Python str.lower, restricted to ASCII case mapping. -/
def pyLower (s : String) : String :=
  ⟨s.data.map Char.toLower⟩

/-- Bool test that needle occurs as a contiguous run inside hay: the Python
membership operator on strings, over explicit character lists. -/
def listContains (hay needle : List Char) : Bool :=
  match hay with
  | [] => needle.isEmpty
  | c :: t => needle.isPrefixOf (c :: t) || listContains t needle

/-- Value produced by the Python float constructor from a string: NaN, a
signed infinity, or a finite value.  Finite values are modelled by the exact
rational value the literal denotes; every concrete literal compared in this
development is exactly representable, so equality of models agrees with IEEE
equality on them. -/
inductive PyFloat where
  | nan : PyFloat
  | inf (neg : Bool) : PyFloat
  | finite (q : Rat) : PyFloat
deriving DecidableEq

/-- Python equality test on two float values: NaN compares unequal to
everything, including itself; infinities compare by sign; finite values by
value. -/
def pyFloatEq : PyFloat → PyFloat → Bool
  | .finite a, .finite b => decide (a = b)
  | .inf a, .inf b => a == b
  | _, _ => false

/-- Numeric value of a list of decimal digit characters. -/
def digitsToNat (l : List Char) : Nat :=
  l.foldl (fun a c => a * 10 + (c.toNat - 48)) 0

/-- Split an optional leading sign from a character list; the Bool is true
for a leading minus. -/
def splitSign : List Char → Bool × List Char
  | '+' :: t => (false, t)
  | '-' :: t => (true, t)
  | l => (false, l)

/-- Parse the mantissa of a decimal literal: digit characters with at most
one dot.  Returns the combined digits as a number together with the count of
fractional digits, or none when the shape is not a valid mantissa. -/
def parseMantissa (l : List Char) : Option (Nat × Nat) :=
  let intPart := l.takeWhile (fun c => c != '.')
  match l.dropWhile (fun c => c != '.') with
  | [] =>
    if intPart ≠ [] ∧ intPart.all Char.isDigit then
      some (digitsToNat intPart, 0)
    else none
  | _ :: frac =>
    if (intPart ≠ [] ∨ frac ≠ []) ∧ intPart.all Char.isDigit ∧ frac.all Char.isDigit then
      some (digitsToNat (intPart ++ frac), frac.length)
    else none

/-- Model of the Python float constructor applied to an already stripped
string: an optional sign followed by inf, infinity or nan read
case-insensitively, or a decimal literal with optional fractional part and
optional exponent; everything else raises ValueError, modelled as none.
Digit-group underscores and the rounding of values to binary doubles are not
modelled; the literals compared in this development are exact. -/
def pyFloat (s : String) : Option PyFloat :=
  let (neg, l) := splitSign s.data
  let low := l.map Char.toLower
  if low = "inf".data ∨ low = "infinity".data then some (.inf neg)
  else if low = "nan".data then some .nan
  else
    let mant := l.takeWhile (fun c => c != 'e' && c != 'E')
    let rest := l.dropWhile (fun c => c != 'e' && c != 'E')
    match parseMantissa mant with
    | none => none
    | some (m, fracLen) =>
      let sgn : Int := if neg then -1 else 1
      match rest with
      | [] => some (.finite (mkRat (sgn * (m : Int)) (10 ^ fracLen)))
      | _ :: et =>
        let (eneg, ed) := splitSign et
        if ed ≠ [] ∧ ed.all Char.isDigit then
          let e := digitsToNat ed
          if eneg then some (.finite (mkRat (sgn * (m : Int)) (10 ^ (fracLen + e))))
          else some (.finite (mkRat (sgn * ((m * 10 ^ e : Nat) : Int)) (10 ^ fracLen)))
        else none

/-- CodeExecutionService._compare_outputs: compare actual output against
expected output under a comparison mode.  Both sides are stripped; exact
tests equality, numeric parses both sides as floats and compares the values
falling back to the stripped equality when either parse raises, contains
tests case-insensitive substring occurrence of expected inside actual, and
every other mode behaves as exact. -/
def _compare_outputs (actual expected comparison_type : String) : Bool :=
  let actual_clean := pyStrip actual
  let expected_clean := pyStrip expected
  if comparison_type = "exact" then
    actual_clean == expected_clean
  else if comparison_type = "numeric" then
    match pyFloat actual_clean, pyFloat expected_clean with
    | some a, some b => pyFloatEq a b
    | _, _ => actual_clean == expected_clean
  else if comparison_type = "contains" then
    listContains (pyLower actual_clean).data (pyLower expected_clean).data
  else
    actual_clean == expected_clean

example : _compare_outputs "3.0" "3" "numeric" = true := by decide
example : _compare_outputs "3.0" "3" "exact" = false := by decide
example : _compare_outputs "The Answer is 42" "42" "contains" = true := by decide
example : _compare_outputs "nan" "nan" "numeric" = false := by decide
example : _compare_outputs " 7 " "7" "exact" = true := by decide
example : _compare_outputs "abc" "abc" "numeric" = true := by decide
example : _compare_outputs "-2.5e1" "-25" "numeric" = true := by decide

/-! ## Execution sandbox (code-executor/app.py, class CodeExecutor) -/

/-- Static language table CodeExecutor.supported_languages: language id,
source-file extension, run command string. -/
def supported_languages : List (String × String × String) :=
  [("python", "py", "python3"),
   ("javascript", "js", "node"),
   ("java", "java", "java"),
   ("cpp", "cpp", "g++"),
   ("go", "go", "go run")]

/-- Membership test and lookup in the language table: extension and run
command for a supported language id, none otherwise. -/
def lookupLanguage (language : String) : Option (String × String) :=
  (supported_languages.find? (fun e => e.1 == language)).map (fun e => e.2)

/-- Python str.split with no arguments: break a string at runs of
whitespace.  The first argument accumulates the current word. -/
def pyWordsAux : List Char → List Char → List String
  | [], cur => if cur.isEmpty then [] else [String.mk cur]
  | c :: t, cur =>
    if isPySpace c then
      if cur.isEmpty then pyWordsAux t [] else String.mk cur :: pyWordsAux t []
    else pyWordsAux t (cur ++ [c])

/-- Python str.split with no arguments. -/
def pySplit (s : String) : List String :=
  pyWordsAux s.data []

/-- Directory into which every execution writes its temporary files: the
constant dir argument of NamedTemporaryFile in CodeExecutor.execute_code. -/
def executionsDir : String := "/tmp/executions"

/-- Path of the temporary source file NamedTemporaryFile creates: a unique
random stem plus a dot and the language extension, inside the one shared
executions directory. -/
def temp_file_path (uid ext : String) : String :=
  executionsDir ++ "/" ++ uid ++ "." ++ ext

/-- Characters of the final path component: everything after the last
slash. -/
def fileNameChars (l : List Char) : List Char :=
  l.foldl (fun acc c => if c = '/' then [] else acc ++ [c]) []

/-- pathlib Path stem: final path component without its last dot suffix. -/
def pathStem (p : String) : String :=
  let n := fileNameChars p.data
  if n.contains '.' then ⟨((n.reverse.dropWhile (fun c => c != '.')).tail).reverse⟩
  else ⟨n⟩

/-- Directory component of a path: everything before the last slash. -/
def parentDir (p : String) : String :=
  ⟨((p.data.reverse.dropWhile (fun c => c != '/')).tail).reverse⟩

/-- Python str.replace restricted to a nonempty pattern: replace every
non-overlapping occurrence of pat in the first list, left to right.  The
fuel argument is the length of the scanned list. -/
def replaceAllAux : Nat → List Char → List Char → List Char → List Char
  | 0, _, _, _ => []
  | _ + 1, [], _, _ => []
  | n + 1, c :: t, pat, rep =>
    if pat.isPrefixOf (c :: t) ∧ pat ≠ [] then
      rep ++ replaceAllAux n ((c :: t).drop pat.length) pat rep
    else c :: replaceAllAux n t pat rep

/-- Python str.replace with a nonempty pattern. -/
def pyReplace (s pat rep : String) : String :=
  ⟨replaceAllAux s.data.length s.data pat.data rep.data⟩

example : pyReplace "/tmp/executions/tmpcc.cpp" ".cpp" ".out" = "/tmp/executions/tmpcc.out" := by
  decide

/-- Outcome of one compiler child process, as subprocess.run reports it. -/
structure CompileOutcome where
  returncode : Int
  stderr : String
deriving DecidableEq

/-- What the host reports back for the spawned program child process:
communicate returned captured stdout, stderr and the return code (negative
when the child was killed by a signal, for example on exceeding an rlimit);
timedOut is subprocess.TimeoutExpired at the wall-clock deadline; raised is
any other exception out of the spawn or wait, an infrastructure fault. -/
inductive RunOutcome where
  | completed (stdout stderr : String) (returncode : Int)
  | timedOut
  | raised (msg : String)
deriving DecidableEq

/-- JSON dictionary returned by CodeExecutor.execute_code: either the
payload of a completed run with keys stdout, stderr, return_code and
success, or a payload holding only an error message. -/
inductive ExecResult where
  | ok (stdout stderr : String) (return_code : Int) (success : Bool)
  | err (msg : String)
deriving DecidableEq

/-- Value of the success key of the result dictionary, when present. -/
def ExecResult.successField : ExecResult → Option Bool
  | .ok _ _ _ s => some s
  | .err _ => none

/-- Value of result.get for key stdout with default empty string. -/
def ExecResult.stdoutD : ExecResult → String
  | .ok out _ _ _ => out
  | .err _ => ""

/-- Value of result.get for key stdout with no default. -/
def ExecResult.stdoutOpt : ExecResult → Option String
  | .ok out _ _ _ => some out
  | .err _ => none

/-- Ambient host behaviour for one call of CodeExecutor.execute_code: the
unique random stem NamedTemporaryFile picks, what the compiler child
process invoked on a given source path reports, which class files a
successful javac writes next to the source (their names derive from the
class declarations inside the submitted code, not from the file stem), and
what spawning the built command with the given stdin does. -/
structure ExecEnv where
  uid : String
  compiler : String → CompileOutcome
  javaArtifacts : List String
  run : List String → String → RunOutcome

/-- Process-termination actions the service can perform when the wall-clock
deadline expires: kill only the immediate child pid (process.kill), or kill
the whole process group rooted at the child. -/
inductive KillAction where
  | pid
  | processGroup
deriving DecidableEq

/-- Observable effects of one call of CodeExecutor.execute_code: the JSON
result, the files the call created on disk and the files it removed before
returning, the run command it spawned if the run step was reached, and the
kill actions it performed. -/
structure ExecTrace where
  result : ExecResult
  files_created : List String
  files_removed : List String
  ran_command : Option (List String)
  kills : List KillAction
deriving DecidableEq

/-- CodeExecutor._build_command: build the run invocation for a language;
java and cpp compile first as a child process, and a nonzero compiler exit
raises Exception with the compiler diagnostics (the error case here).  The
second component of a successful build lists the artifact files the compile
step wrote to disk: the class files for java, the -o output binary for cpp,
nothing for the interpreted commands. -/
def _build_command (env : ExecEnv) (language file_path cmd : String) :
    Except String (List String × List String) :=
  if language = "java" then
    let c := env.compiler file_path
    if c.returncode ≠ 0 then .error ("Compilation failed: " ++ c.stderr)
    else .ok (["java", "-cp", "/tmp/executions", pathStem file_path], env.javaArtifacts)
  else if language = "cpp" then
    let output_file := pyReplace file_path ".cpp" ".out"
    let c := env.compiler file_path
    if c.returncode ≠ 0 then .error ("Compilation failed: " ++ c.stderr)
    else .ok ([output_file], [output_file])
  else
    .ok (pySplit cmd ++ [file_path], [])

/-- CodeExecutor.execute_code, instrumented with its file and process
effects.  Mirrors app.py: an unsupported language is rejected before any
file or process work; the source text code is written to a fresh temporary
file in the shared executions directory; the command is built (compiling
first where needed, a compile failure being the raised-and-caught Exception
path that never spawns the run command); the run maps a completed process
to the stdout, stderr, return_code, success payload with success defined as
return code zero; TimeoutExpired kills the immediate child process and
yields the timeout error payload; any other exception yields the generic
failure payload; the finally block deletes the temporary source file on
every one of these paths and deletes nothing else. -/
def execute_code_trace (env : ExecEnv) (language code input_data : String) : ExecTrace :=
  match lookupLanguage language with
  | none =>
    ⟨.err ("Unsupported language: " ++ language), [], [], none, []⟩
  | some (ext, cmd) =>
    let temp_file := temp_file_path env.uid ext
    match _build_command env language temp_file cmd with
    | .error e =>
      ⟨.err ("Execution failed: " ++ e), [temp_file], [temp_file], none, []⟩
    | .ok (command, artifacts) =>
      match env.run command input_data with
      | .completed stdout stderr rc =>
        ⟨.ok stdout stderr rc (rc == 0), temp_file :: artifacts, [temp_file], some command, []⟩
      | .timedOut =>
        ⟨.err "Execution timeout", temp_file :: artifacts, [temp_file], some command, [.pid]⟩
      | .raised m =>
        ⟨.err ("Execution failed: " ++ m), temp_file :: artifacts, [temp_file], some command, []⟩

/-- CodeExecutor.execute_code: the JSON result alone. -/
def execute_code (env : ExecEnv) (language code input_data : String) : ExecResult :=
  (execute_code_trace env language code input_data).result

example :
    execute_code ⟨"tmpaa", fun _ => ⟨0, ""⟩, [], fun _ _ => .completed "hi\n" "" 0⟩
      "python" "print(1)" "" = .ok "hi\n" "" 0 true := by decide

example :
    execute_code ⟨"tmpaa", fun _ => ⟨0, ""⟩, [], fun _ _ => .completed "hi\n" "" 0⟩
      "haskell" "main = return ()" "" = .err "Unsupported language: haskell" := by decide

/-! ## Grading orchestrator (backend code_execution_service.py) -/

/-- One test case dictionary of problem_data: its id, stdin input and
expected output. -/
structure TestCase where
  id : Option Nat
  input : String
  expected_output : String
deriving DecidableEq

/-- The problem_data dictionary as test_student_code reads it: the test
cases and the problem-level comparison mode output_type. -/
structure Problem where
  test_cases : List TestCase
  output_type : String
deriving DecidableEq

/-- One entry of detailed_results as test_student_code builds it.  The
actual field is result.get for key stdout with no default, hence absent
when the executor reported an error payload. -/
structure TestCaseResult where
  test_case_id : Option Nat
  passed : Bool
  expected : String
  actual : Option String
  input : String
  execution_result : ExecResult
deriving DecidableEq

/-- The dictionary test_student_code returns: score, total test count,
passed count and the ordered detailed results.  The score is a Python
float, modelled as a rational. -/
structure GradeSummary where
  score : Rat
  total_tests : Nat
  passed_tests : Nat
  detailed_results : List TestCaseResult
deriving DecidableEq

/-- CodeExecutionService._execute_code: one HTTP round trip to the executor
service.  A requests.RequestException (connection failure or an HTTP error
status) is caught and turned into the error payload; otherwise the executor
JSON body is returned as is. -/
def _execute_code (raw : Except String ExecResult) : ExecResult :=
  match raw with
  | .ok r => r
  | .error e => .err ("Execution service error: " ++ e)

/-- CodeExecutionService.test_student_code: for each test case in order,
call the executor, compare the stdout of the recorded result (empty string
default) against the expected output under the problem output_type, record
a TestCaseResult, then aggregate the score as passed over total times 100,
or zero for an empty test list.  The oracle argument supplies what the HTTP
call produces for each test case (the language and student code of the
submission are fixed for the whole call and absorbed into the oracle). -/
def test_student_code (oracle : TestCase → Except String ExecResult)
    (problem : Problem) : GradeSummary :=
  let results := problem.test_cases.map fun test_case =>
    let execution_result := _execute_code (oracle test_case)
    let passed := _compare_outputs execution_result.stdoutD
      test_case.expected_output problem.output_type
    (⟨test_case.id, passed, test_case.expected_output,
      execution_result.stdoutOpt, test_case.input, execution_result⟩ : TestCaseResult)
  let passed_count := results.countP (fun r => r.passed)
  let total_score : Rat :=
    if results.isEmpty then 0
    else ((passed_count : Rat) / (results.length : Rat)) * 100
  ⟨total_score, results.length, passed_count, results⟩

example :
    (test_student_code
      (fun tc => .ok (.ok tc.expected_output "" 0 true))
      ⟨[⟨some 1, "", "42"⟩], "exact"⟩).passed_tests = 1 := by decide

example :
    (test_student_code (fun _ => .error "conn") ⟨[⟨some 1, "", "42"⟩], "exact"⟩).score
      = 0 := by with_unfolding_all decide

/-! ## Helper lemmas -/

lemma isPrefixOf_self (l : List Char) : l.isPrefixOf l = true := by
  induction l with
  | nil => rfl
  | cons c t ih => simp [List.isPrefixOf, ih]

lemma listContains_refl (l : List Char) : listContains l l = true := by
  cases l with
  | nil => rfl
  | cons c t => simp [listContains, isPrefixOf_self]

/-! ## Claims -/

/-- C10: numeric comparison is not reflexive — the string nan parses as a
float (it does not fall back to exact comparison) yet compares unequal to
itself, while exact mode and contains mode are reflexive for every
string. -/
theorem numeric_mode_not_reflexive :
    pyFloat (pyStrip "nan") = some PyFloat.nan ∧
    _compare_outputs "nan" "nan" "numeric" = false ∧
    (∀ s, _compare_outputs s s "exact" = true) ∧
    (∀ s, _compare_outputs s s "contains" = true) := by
  refine ⟨by decide, by decide, fun s => ?_, fun s => ?_⟩
  · show (pyStrip s == pyStrip s) = true
    exact beq_self_eq_true _
  · show listContains (pyLower (pyStrip s)).data (pyLower (pyStrip s)).data = true
    exact listContains_refl _

/-- C6: the comparison engine strips both sides and dispatches on the mode:
exact is equality of the stripped strings, numeric compares the parsed
float values when both sides parse and otherwise behaves as exact rather
than erroring, contains is case-insensitive substring occurrence of the
stripped expected in the stripped actual, and any unknown mode behaves as
exact; moreover numeric accepts 3.0 versus 3, exact rejects that pair, and
contains finds 42 inside The Answer is 42. -/
theorem compare_outputs_mode_dispatch :
    (∀ a e, _compare_outputs a e "exact" = (pyStrip a == pyStrip e)) ∧
    (∀ a e x y, pyFloat (pyStrip a) = some x → pyFloat (pyStrip e) = some y →
      _compare_outputs a e "numeric" = pyFloatEq x y) ∧
    (∀ a e, pyFloat (pyStrip a) = none ∨ pyFloat (pyStrip e) = none →
      _compare_outputs a e "numeric" = (pyStrip a == pyStrip e)) ∧
    (∀ a e, _compare_outputs a e "contains"
      = listContains (pyLower (pyStrip a)).data (pyLower (pyStrip e)).data) ∧
    (∀ a e m, m ≠ "exact" → m ≠ "numeric" → m ≠ "contains" →
      _compare_outputs a e m = (pyStrip a == pyStrip e)) ∧
    _compare_outputs "3.0" "3" "numeric" = true ∧
    _compare_outputs "3.0" "3" "exact" = false ∧
    _compare_outputs "The Answer is 42" "42" "contains" = true := by
  refine ⟨fun a e => rfl, fun a e x y hx hy => ?_, fun a e h => ?_,
    fun a e => rfl, fun a e m h1 h2 h3 => ?_, by decide, by decide, by decide⟩
  · show (match pyFloat (pyStrip a), pyFloat (pyStrip e) with
      | some a, some b => pyFloatEq a b
      | _, _ => pyStrip a == pyStrip e) = pyFloatEq x y
    rw [hx, hy]
  · show (match pyFloat (pyStrip a), pyFloat (pyStrip e) with
      | some a, some b => pyFloatEq a b
      | _, _ => pyStrip a == pyStrip e) = (pyStrip a == pyStrip e)
    rcases h with h | h
    · rw [h]
    · rw [h]
      cases pyFloat (pyStrip a) <;> rfl
  · show (if m = "exact" then pyStrip a == pyStrip e
      else if m = "numeric" then
        match pyFloat (pyStrip a), pyFloat (pyStrip e) with
        | some a, some b => pyFloatEq a b
        | _, _ => pyStrip a == pyStrip e
      else if m = "contains" then
        listContains (pyLower (pyStrip a)).data (pyLower (pyStrip e)).data
      else pyStrip a == pyStrip e) = (pyStrip a == pyStrip e)
    rw [if_neg h1, if_neg h2, if_neg h3]

/-- C6 witness: the unknown mode clause and the numeric fallback clause of
the dispatch theorem, instantiated at concrete inputs. -/
theorem compare_outputs_mode_dispatch_witness :
    _compare_outputs "a" "b" "mystery" = (pyStrip "a" == pyStrip "b") ∧
    _compare_outputs "abc" "abc" "numeric" = (pyStrip "abc" == pyStrip "abc") :=
  ⟨compare_outputs_mode_dispatch.2.2.2.2.1 "a" "b" "mystery"
      (by decide) (by decide) (by decide),
    compare_outputs_mode_dispatch.2.2.1 "abc" "abc" (Or.inl (by decide))⟩

/-- C8: the grading run yields exactly one TestCaseResult per TestCase, in
the original order, whatever results the executor oracle produces for each
test case — including every error payload — so no outcome aborts the rest
of the batch. -/
theorem one_result_per_test_case_in_order
    (oracle : TestCase → Except String ExecResult) (problem : Problem) :
    (test_student_code oracle problem).detailed_results.length
      = problem.test_cases.length ∧
    (test_student_code oracle problem).detailed_results.map (fun r => r.test_case_id)
      = problem.test_cases.map (fun tc => tc.id) ∧
    (test_student_code oracle problem).detailed_results.map (fun r => r.input)
      = problem.test_cases.map (fun tc => tc.input) := by
  refine ⟨?_, ?_, ?_⟩ <;> simp [test_student_code]

/-- C8 has universally quantified data arguments and no propositional
hypothesis; still, its instantiation at an oracle that fails on the first
of two test cases shows the second is graded. -/
theorem one_result_per_test_case_in_order_witness :
    (test_student_code
      (fun tc => if tc.input == "a" then .error "conn" else .ok (.ok "1" "" 0 true))
      ⟨[⟨some 1, "a", "1"⟩, ⟨some 2, "b", "1"⟩], "exact"⟩).detailed_results.length = 2 :=
  (one_result_per_test_case_in_order
    (fun tc => if tc.input == "a" then .error "conn" else .ok (.ok "1" "" 0 true))
    ⟨[⟨some 1, "a", "1"⟩, ⟨some 2, "b", "1"⟩], "exact"⟩).1

/-- Grading example for C7: four test cases whose expected outputs are the
strings 1 to 4. -/
def problem4 : Problem :=
  ⟨[⟨some 1, "", "1"⟩, ⟨some 2, "", "2"⟩, ⟨some 3, "", "3"⟩, ⟨some 4, "", "4"⟩], "exact"⟩

/-- Executor behaviour for C7: echo the expected output except on the
fourth test case, so exactly three of four pass. -/
def oracle4 : TestCase → Except String ExecResult :=
  fun tc => .ok (.ok (if tc.expected_output == "4" then "mismatch" else tc.expected_output)
    "" 0 true)

/-- C7: the score is always passed over total times 100 and zero for an
empty test list (score is total, never a division error), and on four test
cases with exactly three matching the summary is score 75, passed 3,
total 4. -/
theorem score_always_ratio_times_100 :
    (∀ (oracle : TestCase → Except String ExecResult) (problem : Problem),
      (test_student_code oracle problem).score =
        if (test_student_code oracle problem).total_tests = 0 then 0
        else ((test_student_code oracle problem).passed_tests : Rat)
          / ((test_student_code oracle problem).total_tests : Rat) * 100) ∧
    (test_student_code oracle4 problem4).score = 75 ∧
    (test_student_code oracle4 problem4).passed_tests = 3 ∧
    (test_student_code oracle4 problem4).total_tests = 4 := by
  refine ⟨fun oracle problem => ?_, by with_unfolding_all decide, by decide, by decide⟩
  cases h : problem.test_cases with
  | nil => simp [test_student_code, h]
  | cons a l => simp [test_student_code, h]

/-- C1 counterexample: when the executor reports an error payload (here the
timeout error, which covers compile errors and infrastructure errors alike,
since none of them carries a stdout key) and the expected output is empty,
the recorded result is passed true and the score is 100 — the claim says
such outcomes are always passed false. -/
theorem error_outcome_can_pass :
    (test_student_code (fun _ => .ok (.err "Execution timeout"))
      ⟨[⟨some 1, "", ""⟩], "exact"⟩).detailed_results.map (fun r => r.passed) = [true] ∧
    (test_student_code (fun _ => .ok (.err "Execution timeout"))
      ⟨[⟨some 1, "", ""⟩], "exact"⟩).score = 100 :=
  ⟨by decide, by with_unfolding_all decide⟩

/-- C1 amended: passed is exactly the comparison verdict on the stdout of
the recorded outcome (defaulting to the empty string when the outcome
carries no stdout key), the expected output and the problem-level mode; the
success of the sandbox outcome is not part of the formula, so error
outcomes and failed runs can still yield passed true. -/
theorem passed_is_comparison_verdict_only
    (oracle : TestCase → Except String ExecResult) (problem : Problem)
    (r : TestCaseResult)
    (h : r ∈ (test_student_code oracle problem).detailed_results) :
    r.passed = _compare_outputs r.execution_result.stdoutD r.expected problem.output_type := by
  simp only [test_student_code, List.mem_map] at h
  obtain ⟨tc, _, rfl⟩ := h
  rfl

/-- C1 amended witness: the passed flag of the single recorded result of a
concrete grading run is the comparison verdict on its recorded outcome. -/
theorem passed_is_comparison_verdict_only_witness :
    (⟨some 1, true, "5", some "5", "", .ok "5" "" 0 true⟩ : TestCaseResult).passed
      = _compare_outputs
          (ExecResult.ok "5" "" 0 true).stdoutD "5"
          (⟨[⟨some 1, "", "5"⟩], "exact"⟩ : Problem).output_type :=
  passed_is_comparison_verdict_only
    (fun _ => .ok (.ok "5" "" 0 true)) ⟨[⟨some 1, "", "5"⟩], "exact"⟩
    ⟨some 1, true, "5", some "5", "", .ok "5" "" 0 true⟩ (by decide)

/-- C2 counterexample: a run killed for exceeding a resource limit produces
the very same payload as an ordinary failing run.  A Python program pushed
over the 256MB address-space rlimit dies of MemoryError with exit code 1;
its payload is identical to that of a program that merely exits with code 1
after the same streams.  A child killed by the CPU rlimit signal surfaces
as the same ok-shaped payload with a negative return code.  No
ResourceLimitExceeded outcome exists anywhere in the result mapping. -/
theorem resource_kill_is_ordinary_failure :
    execute_code ⟨"tmpmem", fun _ => ⟨0, ""⟩, [], fun _ _ => .completed "" "MemoryError" 1⟩
      "python" "x = [0] * (10 ** 12)" "" = .ok "" "MemoryError" 1 false ∧
    execute_code ⟨"tmpord", fun _ => ⟨0, ""⟩, [], fun _ _ => .completed "" "MemoryError" 1⟩
      "python" "import sys; sys.stderr.write(chr(77)); sys.exit(1)" ""
      = .ok "" "MemoryError" 1 false ∧
    execute_code ⟨"tmpcpu", fun _ => ⟨0, ""⟩, [], fun _ _ => .completed "" "" (-9)⟩
      "python" "while True: pass" "" = .ok "" "" (-9) false :=
  ⟨by decide, by decide, by decide⟩

/-- C2 amended: the result mapping of a spawned run is exit code 0 to
success true, any completed nonzero exit — including a child killed by a
resource-limit signal, visible only as a negative return code — to success
false with the captured stderr and no distinct resource outcome, and
wall-clock deadline expiry to the timeout error payload, which differs from
every completed payload. -/
theorem run_result_mapping (uid : String) (compiler : String → CompileOutcome)
    (arts : List String) (code input out errS : String) (rc : Int) :
    execute_code ⟨uid, compiler, arts, fun _ _ => .completed out errS rc⟩ "python" code input
      = .ok out errS rc (rc == 0) ∧
    ((rc == 0) = true ↔ rc = 0) ∧
    execute_code ⟨uid, compiler, arts, fun _ _ => .timedOut⟩ "python" code input
      = .err "Execution timeout" ∧
    (∀ o e c s, ExecResult.err "Execution timeout" ≠ ExecResult.ok o e c s) :=
  ⟨rfl, by simp, rfl, fun o e c s h => by cases h⟩

/-- C3 counterexample: when the deadline expires the service performs
exactly one kill action, and it targets only the immediate child pid
(process.kill), not the process group the claim requires. -/
theorem timeout_kills_only_immediate_pid :
    (execute_code_trace ⟨"tmpto", fun _ => ⟨0, ""⟩, [], fun _ _ => .timedOut⟩
      "python" "import time; time.sleep(100)" "").kills = [KillAction.pid] ∧
    KillAction.pid ≠ KillAction.processGroup :=
  ⟨by decide, by decide⟩

/-- C3 amended: no execution path ever performs a process-group kill; on
deadline expiry the service kills exactly the immediate child pid and
reports the timeout error payload, so a descendant process spawned by the
submitted program is not terminated. -/
theorem timeout_pid_kill_and_timeout_report :
    (∀ (env : ExecEnv) (language code input : String),
      KillAction.processGroup ∉ (execute_code_trace env language code input).kills) ∧
    (∀ (uid : String) (compiler : String → CompileOutcome) (arts : List String)
        (code input : String),
      (execute_code_trace ⟨uid, compiler, arts, fun _ _ => .timedOut⟩
        "python" code input).kills = [KillAction.pid] ∧
      (execute_code_trace ⟨uid, compiler, arts, fun _ _ => .timedOut⟩
        "python" code input).result = .err "Execution timeout") := by
  constructor
  · intro env language code input
    unfold execute_code_trace
    split
    · simp
    · dsimp only
      split
      · simp
      · split <;> simp
  · intro uid compiler arts code input
    exact ⟨rfl, rfl⟩

/-- C4 counterexample: two executions with distinct unique stems create
their source files inside one and the same directory — no per-invocation
working directory exists — and for java both run commands point at that
single shared classpath directory, into which javac also writes the class
files named after the declared class (here Main.class for both), so two
same-named submissions write the same artifact path. -/
theorem executions_share_one_directory :
    (execute_code_trace ⟨"tmpaaa", fun _ => ⟨0, ""⟩, [], fun _ _ => .completed "" "" 0⟩
      "python" "print(1)" "").files_created = ["/tmp/executions/tmpaaa.py"] ∧
    (execute_code_trace ⟨"tmpbbb", fun _ => ⟨0, ""⟩, [], fun _ _ => .completed "" "" 0⟩
      "python" "print(1)" "").files_created = ["/tmp/executions/tmpbbb.py"] ∧
    "tmpaaa" ≠ "tmpbbb" ∧
    parentDir "/tmp/executions/tmpaaa.py" = parentDir "/tmp/executions/tmpbbb.py" ∧
    (execute_code_trace
      ⟨"tmpaaa", fun _ => ⟨0, ""⟩, ["/tmp/executions/Main.class"], fun _ _ => .completed "" "" 0⟩
      "java" "class Main" "").files_created
      = ["/tmp/executions/tmpaaa.java", "/tmp/executions/Main.class"] ∧
    (execute_code_trace
      ⟨"tmpbbb", fun _ => ⟨0, ""⟩, ["/tmp/executions/Main.class"], fun _ _ => .completed "" "" 0⟩
      "java" "class Main" "").files_created
      = ["/tmp/executions/tmpbbb.java", "/tmp/executions/Main.class"] ∧
    (execute_code_trace
      ⟨"tmpaaa", fun _ => ⟨0, ""⟩, ["/tmp/executions/Main.class"], fun _ _ => .completed "" "" 0⟩
      "java" "class Main" "").ran_command
      = some ["java", "-cp", "/tmp/executions", "tmpaaa"] ∧
    (execute_code_trace
      ⟨"tmpbbb", fun _ => ⟨0, ""⟩, ["/tmp/executions/Main.class"], fun _ _ => .completed "" "" 0⟩
      "java" "class Main" "").ran_command
      = some ["java", "-cp", "/tmp/executions", "tmpbbb"] := by
  refine ⟨by decide, by decide, by decide, by decide, by decide, by decide, by decide, by decide⟩

/-- C4 amended: each invocation allocates a uniquely named temporary source
file — distinct stems never collide on the source path — but all of them
live inside the single shared executions directory rather than an isolated
per-invocation directory. -/
theorem unique_source_file_shared_directory :
    (∀ uidA uidB ext : String, uidA ≠ uidB →
      temp_file_path uidA ext ≠ temp_file_path uidB ext) ∧
    (∀ (env : ExecEnv) (language code input : String),
      (execute_code_trace env language code input).files_created.head?
        = (lookupLanguage language).map (fun p => temp_file_path env.uid p.1)) := by
  constructor
  · intro uidA uidB ext hne heq
    apply hne
    have h1 := congrArg String.data heq
    simp only [temp_file_path, String.data_append] at h1
    have h2 := List.append_cancel_right h1
    have h3 := List.append_cancel_right h2
    have h4 := List.append_cancel_left h3
    exact String.ext h4
  · intro env language code input
    unfold execute_code_trace
    split
    · rename_i heq
      rw [heq]
      simp
    · rename_i x ext cmd heq
      rw [heq]
      dsimp only
      split
      · simp
      · split <;> simp

/-- C4 amended witness: distinct stems give distinct source file paths. -/
theorem unique_source_file_shared_directory_witness :
    temp_file_path "a" "py" ≠ temp_file_path "b" "py" :=
  unique_source_file_shared_directory.1 "a" "b" "py" (by decide)

/-- C5 counterexample: a java submission whose compiler exits nonzero comes
back as the generic error payload built from the caught Exception text; the
payload does carry the compiler diagnostics and the run step is indeed
never spawned, but it has no success key at all — result.get for success is
none, not false — and no distinct CompileError outcome exists. -/
theorem compile_failure_lacks_success_field :
    (execute_code_trace
      ⟨"tmpjv", fun _ => ⟨1, "Main.java:1: error: reached end of file"⟩, [],
        fun _ _ => .completed "" "" 0⟩ "java" "class Main" "").result
      = .err "Execution failed: Compilation failed: Main.java:1: error: reached end of file" ∧
    ((execute_code_trace
      ⟨"tmpjv", fun _ => ⟨1, "Main.java:1: error: reached end of file"⟩, [],
        fun _ _ => .completed "" "" 0⟩ "java" "class Main" "").result).successField = none ∧
    (none : Option Bool) ≠ some false ∧
    (execute_code_trace
      ⟨"tmpjv", fun _ => ⟨1, "Main.java:1: error: reached end of file"⟩, [],
        fun _ _ => .completed "" "" 0⟩ "java" "class Main" "").ran_command = none :=
  ⟨by decide, by decide, by decide, by decide⟩

/-- C5 amended: for every compiled-language submission — java and cpp are
the two languages of the table with a compile step — whose compiler exits
nonzero, the call returns the terminal error payload carrying the compiler
diagnostics (with no success key), the run step is never spawned, and only
the temporary source file is touched and removed. -/
theorem compile_error_is_terminal (uid diag code input : String) (rc : Int)
    (arts : List String) (run : List String → String → RunOutcome) (h : rc ≠ 0) :
    (execute_code_trace ⟨uid, fun _ => ⟨rc, diag⟩, arts, run⟩ "java" code input
      = ⟨.err ("Execution failed: " ++ ("Compilation failed: " ++ diag)),
          [temp_file_path uid "java"], [temp_file_path uid "java"], none, []⟩) ∧
    (execute_code_trace ⟨uid, fun _ => ⟨rc, diag⟩, arts, run⟩ "cpp" code input
      = ⟨.err ("Execution failed: " ++ ("Compilation failed: " ++ diag)),
          [temp_file_path uid "cpp"], [temp_file_path uid "cpp"], none, []⟩) := by
  constructor <;>
    (unfold execute_code_trace; simp [lookupLanguage, supported_languages, _build_command, h])

/-- C5 amended witness: a concrete nonzero compiler exit, for the java
branch and for the cpp branch. -/
theorem compile_error_is_terminal_witness :
    (execute_code_trace ⟨"u", fun _ => ⟨1, "boom"⟩, [], fun _ _ => .completed "" "" 0⟩
      "java" "x" ""
      = ⟨.err "Execution failed: Compilation failed: boom",
          [temp_file_path "u" "java"], [temp_file_path "u" "java"], none, []⟩) ∧
    (execute_code_trace ⟨"u", fun _ => ⟨1, "boom"⟩, [], fun _ _ => .completed "" "" 0⟩
      "cpp" "x" ""
      = ⟨.err "Execution failed: Compilation failed: boom",
          [temp_file_path "u" "cpp"], [temp_file_path "u" "cpp"], none, []⟩) :=
  ⟨(compile_error_is_terminal "u" "boom" "x" "" 1 []
      (fun _ _ => .completed "" "" 0) (by decide)).1,
    (compile_error_is_terminal "u" "boom" "x" "" 1 []
      (fun _ _ => .completed "" "" 0) (by decide)).2⟩

/-- C9 counterexample: a successful cpp execution creates both the source
file and the compiled .out binary, but the cleanup block removes only the
source file — the build artifact stays on disk after the call returns. -/
theorem cpp_artifact_not_cleaned_up :
    (execute_code_trace ⟨"tmpcc", fun _ => ⟨0, ""⟩, [], fun _ _ => .completed "" "" 0⟩
      "cpp" "int main()" "").files_created
      = ["/tmp/executions/tmpcc.cpp", "/tmp/executions/tmpcc.out"] ∧
    (execute_code_trace ⟨"tmpcc", fun _ => ⟨0, ""⟩, [], fun _ _ => .completed "" "" 0⟩
      "cpp" "int main()" "").files_removed = ["/tmp/executions/tmpcc.cpp"] ∧
    "/tmp/executions/tmpcc.out" ∉
      (execute_code_trace ⟨"tmpcc", fun _ => ⟨0, ""⟩, [], fun _ _ => .completed "" "" 0⟩
        "cpp" "int main()" "").files_removed :=
  ⟨by decide, by decide, by decide⟩

/-- C9 amended: on every exit path the cleanup removes exactly the
temporary source file (and nothing for an unsupported language, which
creates no file); compiler build artifacts are never removed. -/
theorem cleanup_removes_only_source_file (env : ExecEnv) (language code input : String) :
    (execute_code_trace env language code input).files_removed
      = match lookupLanguage language with
        | none => []
        | some (ext, _) => [temp_file_path env.uid ext] := by
  unfold execute_code_trace
  split
  · rfl
  · dsimp only
    split
    · simp
    · split <;> simp

end AILP
